import Mathlib

/-!
Shallow embedding of the Riskos risk-analysis orchestration and
result-normalization pipeline.

The definitions below are translated from the JavaScript sources:
  * `backend` controllers (market/risk/prediction controller, portfolio
    routes with the bounded calculation history),
  * `frontend` components (`RiskAnalysisAdapter`, `AdvancedRiskCharts`,
    `ForecastVisualizations`, `Assessment`).

JavaScript values that flow through the pipeline are modelled by `JsVal`;
`Option` encodes presence/absence of an object property (a `none` field is
an absent / `undefined` property).  Numbers are modelled by `Rat`
(JavaScript numbers in this code path are decimal literals and arithmetic
on them; `NaN` is represented by `Option` where the source inspects it).
-/

namespace Riskos

/-- A JavaScript value as it appears in the JSON payloads of this app. -/
inductive JsVal where
  | null : JsVal
  | bool (b : Bool) : JsVal
  | num (q : Rat) : JsVal
  | str (s : String) : JsVal
  | arr (xs : List JsVal) : JsVal
  | obj (fields : List (String × JsVal)) : JsVal
deriving Repr, BEq, Inhabited

/-- JavaScript truthiness for the values modelled by `JsVal`
(`null`, `false`, `0`, `""` are falsy; objects and arrays are truthy). -/
def jsTruthy : JsVal → Bool
  | .null => false
  | .bool b => b
  | .num q => q != 0
  | .str s => s != ""
  | .arr _ => true
  | .obj _ => true

/-- Property lookup on a modelled object: the last binding wins, as in a
JavaScript object literal built with spreads. -/
def objGet (fields : List (String × JsVal)) (k : String) : Option JsVal :=
  (fields.reverse.find? (fun kv => kv.1 == k)).map (·.2)

/-- Numeric value of a digit list (most significant first), base 10. -/
def digitsVal (l : List Char) : Nat :=
  l.foldl (fun a c => 10 * a + (c.toNat - 48)) 0

/-- ASCII whitespace, the whitespace relevant to this app's inputs. -/
def isWsChar (c : Char) : Bool :=
  c == ' ' || c == '\t' || c == '\n' || c == '\r'

/-- `String.prototype.trim()` (leading and trailing whitespace removed). -/
def jsTrim (s : String) : String :=
  ⟨((s.toList.dropWhile isWsChar).reverse.dropWhile isWsChar).reverse⟩

/-- `String.prototype.toUpperCase()` (character-wise uppercasing). -/
def jsToUpper (s : String) : String :=
  ⟨s.toList.map Char.toUpper⟩

/-- `String.prototype.endsWith(suffix)`. -/
def jsEndsWith (s suffix : String) : Bool :=
  suffix.toList.isSuffixOf s.toList

/-- `String.prototype.replace(pat, rep)` with a string pattern: replaces
only the FIRST occurrence of `pat` (here always the non-empty `".NS"`). -/
def jsReplaceFirst (pat rep : String) (s : String) : String :=
  ⟨go pat.toList rep.toList s.toList⟩
where
  go (pat rep : List Char) : List Char → List Char
    | [] => []
    | c :: cs =>
      if pat.isPrefixOf (c :: cs) then rep ++ (c :: cs).drop pat.length
      else c :: go pat rep cs

/-- `parseInt(s, 10)`: skip leading whitespace, optional sign, then the
longest prefix of decimal digits; no digits at all gives `NaN`, modelled
as `none`. -/
def jsParseInt (s : String) : Option Int :=
  let l := (jsTrim s).toList
  let signed : Int × List Char :=
    match l with
    | '-' :: r => (-1, r)
    | '+' :: r => (1, r)
    | r => (1, r)
  let digits := signed.2.takeWhile Char.isDigit
  if digits.isEmpty then none
  else some (signed.1 * (digitsVal digits : Int))

/-- `parseFloat(s)`: skip leading whitespace, optional sign, then the
longest prefix shaped `digits[.digits]`; trailing garbage is ignored and
no leading number at all gives `NaN`, modelled as `none`. -/
def jsParseFloat (s : String) : Option Rat :=
  let l := (jsTrim s).toList
  let signed : Rat × List Char :=
    match l with
    | '-' :: r => (-1, r)
    | '+' :: r => (1, r)
    | r => (1, r)
  let intDigits := signed.2.takeWhile Char.isDigit
  let rest := signed.2.drop intDigits.length
  let fracDigits : List Char :=
    match rest with
    | '.' :: r => r.takeWhile Char.isDigit
    | _ => []
  if intDigits.isEmpty && fracDigits.isEmpty then none
  else
    some (signed.1 *
      ((digitsVal intDigits : Rat) +
        (digitsVal fracDigits : Rat) / ((10 : Rat) ^ fracDigits.length)))

/-- `Number(s)` on a whole string: `""` is `0`; otherwise the entire
string must be an optionally signed decimal numeral, else `NaN` (`none`).
(The scientific-notation forms never produced by this app are not
modelled.) -/
def jsNumber (s : String) : Option Rat :=
  let t := jsTrim s
  if t == "" then some 0
  else
    let l := t.toList
    let signed : Rat × List Char :=
      match l with
      | '-' :: r => (-1, r)
      | '+' :: r => (1, r)
      | r => (1, r)
    let intDigits := signed.2.takeWhile Char.isDigit
    let rest := signed.2.drop intDigits.length
    match rest with
    | [] =>
      if intDigits.isEmpty then none
      else some (signed.1 * (digitsVal intDigits : Rat))
    | '.' :: frac =>
      let fracDigits := frac.takeWhile Char.isDigit
      if ¬ (frac.drop fracDigits.length).isEmpty then none
      else if intDigits.isEmpty && fracDigits.isEmpty then none
      else
        some (signed.1 *
          ((digitsVal intDigits : Rat) +
            (digitsVal fracDigits : Rat) / ((10 : Rat) ^ fracDigits.length)))
    | _ => none

/-- One row of the Assessment form; all three fields are `<input>` values
and therefore strings. -/
structure InputStock where
  stockName : String
  quantity : String
  buyPrice : String
deriving Repr, BEq, Inhabited

/-- An HTTP response sent with `res.status(..).json(..)` / `res.json(..)`
(`res.json` without a status sends 200). -/
structure HttpResponse where
  status : Nat
  body : JsVal
deriving Repr, BEq, Inhabited

/- ===================== Market controller: getPrice ===================== -/

/-- The symbol actually queried upstream by `getPrice`:
`symbol = req.params.symbol.toUpperCase()`, then
`nseSymbol = symbol.endsWith(".NS") ? symbol : symbol + ".NS"`. -/
def nseSymbolOf (rawSymbol : String) : String :=
  let symbol := jsToUpper rawSymbol
  if jsEndsWith symbol ".NS" then symbol else symbol ++ ".NS"

/-- `getPrice` from the market controller.  `upstream` abstracts the Yahoo
chart endpoint: `some price` is a successful fetch of
`result.meta.regularMarketPrice`, `none` any thrown failure. -/
def getPrice (rawSymbol : String) (upstream : String → Option Rat) : HttpResponse :=
  let symbol := jsToUpper rawSymbol
  match upstream (nseSymbolOf rawSymbol) with
  | some price => ⟨200, .obj [("symbol", .str symbol), ("price", .num price)]⟩
  | none => ⟨500, .obj [("error", .str "Failed to fetch price.")]⟩

/- ===================== Risk controller: calculateRisk ===================== -/

/-- The `input` sub-document of the `RiskResult` saved by `calculateRisk`:
`symbols` keeps the raw names while `quantities` and `buyPrices` are each
`parseInt(_, 10)` of the submitted strings (`none` is `NaN`). -/
structure RiskInputRecord where
  symbols : List String
  quantities : List (Option Int)
  buyPrices : List (Option Int)
deriving Repr, BEq, Inhabited

/-- Builder of the persisted `input` record in `calculateRisk`. -/
def riskInputOf (portfolio : List InputStock) : RiskInputRecord where
  symbols := portfolio.map (·.stockName)
  quantities := portfolio.map (fun stock => jsParseInt stock.quantity)
  buyPrices := portfolio.map (fun stock => jsParseInt stock.buyPrice)

/-- Outcome of `await riskResult.save()` / `await newPrediction.save()`:
`ok` carries the id under which the document was stored, `error` the
thrown message. -/
inductive SaveOutcome where
  | ok (id : String)
  | error (msg : String)
deriving Repr, BEq, Inhabited

/-- Outcome of the axios call to the Flask engine, mirroring the fields
axios puts on a thrown error: `ok` is a 2xx response with its JSON data;
`respErr` has `error.response` (non-2xx status, payload, statusText);
`noResponse` has only `error.request`; `setupErr` has neither. -/
inductive EngineOutcome where
  | ok (data : List (String × JsVal))
  | respErr (status : Nat) (data : List (String × JsVal)) (statusText : String)
  | noResponse
  | setupErr (msg : String)
deriving Repr, BEq, Inhabited

/-- `calculateRisk`: POSTs `req.body` to the Flask `/calculate-risk`
endpoint, then — still inside the same `try` — builds and `await`s the
`RiskResult` save, and only then answers with
`{...response.data, mongoId}`.  Any throw (engine call OR save) reaches
the single `catch`, which answers 500 with a fixed message. -/
def calculateRisk (engine : EngineOutcome) (save : SaveOutcome) : HttpResponse :=
  match engine with
  | .ok data =>
    match save with
    | .ok mongoId => ⟨200, .obj (data ++ [("mongoId", .str mongoId)])⟩
    | .error _ =>
      ⟨500, .obj [("error", .str "Something went wrong while calculating risk.")]⟩
  | _ => ⟨500, .obj [("error", .str "Something went wrong while calculating risk.")]⟩

/- ================ Prediction controller: analyzePortfolio ================ -/

/-- One stock of the payload `analyzePortfolio` forwards to Flask:
`quantity` and `buyPrice` are `parseInt(_, 10)` of the submitted strings
(`none` is `NaN`). -/
structure FormattedStock where
  stockName : String
  quantity : Option Int
  buyPrice : Option Int
deriving Repr, BEq, Inhabited

/-- The body `analyzePortfolio` receives from the frontend. -/
structure AnalyzeBody where
  portfolio : List InputStock
  confidenceLevel : String
  forecastDays : String
  folderPath : JsVal
deriving Repr, BEq, Inhabited

/-- The `formattedPayload` built by `analyzePortfolio` before calling
Flask. -/
structure FormattedPayload where
  portfolio : List FormattedStock
  confidenceLevel : Option Int
  forecastDays : Option Int
  folderPath : JsVal
deriving Repr, BEq, Inhabited

/-- `formattedPayload` construction in `analyzePortfolio`. -/
def formatPayload (body : AnalyzeBody) : FormattedPayload where
  portfolio := body.portfolio.map (fun stock =>
    { stockName := stock.stockName
      quantity := jsParseInt stock.quantity
      buyPrice := jsParseInt stock.buyPrice })
  confidenceLevel := jsParseInt body.confidenceLevel
  forecastDays := jsParseInt body.forecastDays
  folderPath := body.folderPath

/-- An `Option Int` as it is serialized to JSON: `NaN` (`none`)
serializes as `null`. -/
def encodeMaybeInt : Option Int → JsVal
  | some n => .num (n : Rat)
  | none => .null

/-- The `formattedPayload` as a JSON value (the shape stored in the
`input` field of the saved `PredictionResult`). -/
def encodeFormatted (fp : FormattedPayload) : JsVal :=
  .obj [("portfolio", .arr (fp.portfolio.map (fun stock =>
          .obj [("stockName", .str stock.stockName),
                ("quantity", encodeMaybeInt stock.quantity),
                ("buyPrice", encodeMaybeInt stock.buyPrice)]))),
        ("confidenceLevel", encodeMaybeInt fp.confidenceLevel),
        ("forecastDays", encodeMaybeInt fp.forecastDays),
        ("folderPath", fp.folderPath)]

/-- The `PredictionResult` document saved by `analyzePortfolio`:
`input` is the formatted payload and `visualization` is
`result.visualization || null`. -/
def newPredictionOf (user : String) (fp : FormattedPayload)
    (result : List (String × JsVal)) : JsVal :=
  let vis :=
    match objGet result "visualization" with
    | some v => if jsTruthy v then v else .null
    | none => .null
  .obj [("user", .str user),
        ("input", encodeFormatted fp),
        ("result", .obj result),
        ("visualization", vis)]

/-- The `details` field of the error answered when the engine responded
with a non-2xx status: `error.response.data.error || error.response.statusText`. -/
def respErrDetails (data : List (String × JsVal)) (statusText : String) : JsVal :=
  match objGet data "error" with
  | some v => if jsTruthy v then v else .str statusText
  | none => .str statusText

/-- Response shaping of `analyzePortfolio` for a given axios outcome:
the success path saves a `PredictionResult` and answers
`res.json(saved)`; the `catch` distinguishes `error.response` (engine
status forwarded), `error.request` (504) and everything else —
including a failed `save()` — (500). -/
def analyzeRespond (user : String) (fp : FormattedPayload)
    (engineOutcome : EngineOutcome) (save : SaveOutcome) : HttpResponse :=
  match engineOutcome with
  | .ok result =>
    match save with
    | .ok _ => ⟨200, newPredictionOf user fp result⟩
    | .error msg =>
      ⟨500, .obj [("error", .str "Failed to analyze portfolio"),
                  ("details", .str msg)]⟩
  | .respErr status data statusText =>
    ⟨status, .obj [("error", .str "Failed to analyze portfolio"),
                   ("details", respErrDetails data statusText)]⟩
  | .noResponse =>
    ⟨504, .obj [("error", .str "Failed to analyze portfolio"),
                ("details", .str "No response received from prediction service")]⟩
  | .setupErr msg =>
    ⟨500, .obj [("error", .str "Failed to analyze portfolio"),
                ("details", .str msg)]⟩

/-- `analyzePortfolio`: formats the payload, calls Flask, and shapes the
response from the axios outcome with `analyzeRespond`. -/
def analyzePortfolio (user : String) (body : AnalyzeBody)
    (engine : FormattedPayload → EngineOutcome) (save : SaveOutcome) : HttpResponse :=
  analyzeRespond user (formatPayload body) (engine (formatPayload body)) save

/- ===================== Assessment page: handleSubmit ===================== -/

/-- The two modes of the Assessment page. -/
inductive Mode where
  | calculate
  | forecast
deriving Repr, BEq, Inhabited

/-- The payload POSTed by `handleSubmit`: portfolio rows are forwarded
with their raw string `quantity`/`buyPrice`; `forecastDays` and
`folderPath` are attached only in forecast mode. -/
structure SubmitPayload where
  portfolio : List InputStock
  confidenceLevel : String
  forecastDays : Option String
  folderPath : Option String
deriving Repr, BEq, Inhabited

/-- What `handleSubmit` does after the auth check: either it sets the
error banner and returns without any network call, or it POSTs the
payload to the backend. -/
inductive SubmitAction where
  | reject (msg : String)
  | submit (payload : SubmitPayload)
deriving Repr, BEq, Inhabited

/-- The only input validation in `handleSubmit`:
`stockData.some(stock => !stock.stockName || !stock.quantity || !stock.buyPrice)`
(a field is falsy exactly when it is the empty string). -/
def hasEmptyFields (stockData : List InputStock) : Bool :=
  stockData.any (fun stock =>
    stock.stockName == "" || stock.quantity == "" || stock.buyPrice == "")

/-- `handleSubmit` (validation and payload shaping; the auth redirect is
outside the submission flow modelled here). -/
def handleSubmit (stockData : List InputStock) (confidenceLevel : String)
    (forecastDays : String) (activeMode : Mode) : SubmitAction :=
  if hasEmptyFields stockData then
    .reject "Please fill in all stock details"
  else
    .submit
      { portfolio := stockData.map (fun s =>
          { stockName := s.stockName, quantity := s.quantity, buyPrice := s.buyPrice })
        confidenceLevel := confidenceLevel
        forecastDays := if activeMode == .forecast then some forecastDays else none
        folderPath := if activeMode == .forecast then some "flask-api\\Scripts" else none }

/- ============== Portfolio routes: bounded calculation history ============== -/

/-- A `calculationHistory` entry as pushed by `POST /save-calculation`. -/
structure HistoryEntry where
  calculationType : String
  portfolio : JsVal
  confidenceLevel : JsVal
  forecastDays : JsVal
  results : JsVal
  calculatedAt : Nat
deriving Repr, BEq, Inhabited

/-- The in-place history update of `POST /save-calculation`:
`unshift` the new entry, then `slice(0, 50)` when the length exceeds 50.
The list is newest-first. -/
def pushHistory (hist : List HistoryEntry) (e : HistoryEntry) : List HistoryEntry :=
  let h := e :: hist
  if h.length > 50 then h.take 50 else h

/-- The per-owner history store (`user.calculationHistory`, keyed by the
authenticated user id). -/
def HistoryStore : Type := String → List HistoryEntry

/-- The store with no saved calculations for anyone. -/
def emptyStore : HistoryStore := fun _ => []

/-- `POST /save-calculation` as a store transition for its owner: only the
authenticated owner's `calculationHistory` is touched. -/
def saveCalc (store : HistoryStore) (owner : String) (e : HistoryEntry) : HistoryStore :=
  fun o => if o == owner then pushHistory (store o) e else store o

/-- A sequence of `save-calculation` requests applied in order. -/
def applyOps (store : HistoryStore) (ops : List (String × HistoryEntry)) : HistoryStore :=
  ops.foldl (fun st op => saveCalc st op.1 op.2) store

/-- `DELETE /clear-history` for one owner. -/
def clearHistory (store : HistoryStore) (owner : String) : HistoryStore :=
  fun o => if o == owner then [] else store o

/- ========== ForecastVisualizations: shape detection & normalization ========== -/

/-- `Number(v)` on a `JsVal` (`none` is `NaN`).  Arrays/objects are never
fed to it by this code path and are mapped to `NaN`. -/
def jsToNumber : JsVal → Option Rat
  | .null => some 0
  | .bool b => some (if b then 1 else 0)
  | .num q => some q
  | .str s => jsNumber s
  | .arr _ => none
  | .obj _ => none

/-- `coerceNum` from `ForecastVisualizations`: `null`/`undefined` give 0;
strings are stripped to `[0-9.-]` and `Number`ed with `NaN` collapsed to
0; anything else is `Number(v) || 0`. -/
def coerceNum : Option JsVal → Rat
  | none => 0
  | some .null => 0
  | some (.str s) =>
    let stripped : String :=
      ⟨s.toList.filter (fun c => c.isDigit || c == '.' || c == '-')⟩
    (jsNumber stripped).getD 0
  | some v => (jsToNumber v).getD 0

/-- One entry of the engine's `individual_stocks` map as read by
`normalizeStocks` (each field is an optional property of the raw JSON). -/
structure RawStock where
  quantity : Option JsVal
  buy_price : Option JsVal
  current_price : Option JsVal
  position_value : Option JsVal
  profit_loss : Option JsVal
  var_amount : Option JsVal
deriving Repr, BEq, Inhabited

/-- The structure `normalizeStocks` and the summary cards read from:
either the top level of a flat engine response or the object found under
its `result` key. -/
structure EngineInner where
  individual_stocks : Option (List (String × RawStock))
  portfolio_summary : Option (List (String × JsVal))
deriving Repr, BEq, Inhabited

/-- An engine response as received by `ForecastVisualizations`: the flat
shape carries `individual_stocks`/`portfolio_summary` at top level, the
Mongo-wrapped shape carries the same structure under `result`. -/
structure EngineResponse where
  top : EngineInner
  result : Option EngineInner
deriving Repr, BEq, Inhabited

/-- Shape detection:
`const root = result.individual_stocks ? result : (result.result || result)`. -/
def rootOf (r : EngineResponse) : EngineInner :=
  if r.top.individual_stocks.isSome then r.top
  else
    match r.result with
    | some inner => inner
    | none => r.top

/-- A normalized stock produced by `normalizeStocks`. -/
structure NormStock where
  name : String
  quantity : Rat
  buy_price : Rat
  current_price : Rat
  position_value : Rat
  profit_loss : Rat
  var_amount : Rat
deriving Repr, BEq, Inhabited

/-- `normalizeStocks`: empty when `individual_stocks` is absent, else one
entry per key with every numeric field run through `coerceNum`. -/
def normalizeStocks (root : EngineInner) : List NormStock :=
  match root.individual_stocks with
  | none => []
  | some entries => entries.map (fun kv =>
      { name := kv.1
        quantity := coerceNum kv.2.quantity
        buy_price := coerceNum kv.2.buy_price
        current_price := coerceNum kv.2.current_price
        position_value := coerceNum kv.2.position_value
        profit_loss := coerceNum kv.2.profit_loss
        var_amount := coerceNum kv.2.var_amount })

/-- Everything `ForecastVisualizations` derives from the detected root:
the normalized stock list and `ps = root.portfolio_summary || {}`. -/
def normalizeResult (r : EngineResponse) : List NormStock × List (String × JsVal) :=
  (normalizeStocks (rootOf r), (rootOf r).portfolio_summary.getD [])

/-- A flat (calculate-style) engine response. -/
def flatShape (stocks : List (String × RawStock))
    (summary : List (String × JsVal)) : EngineResponse :=
  ⟨⟨some stocks, some summary⟩, none⟩

/-- The same data nested one level under `result` (forecast-style,
Mongo-wrapped response). -/
def wrappedShape (stocks : List (String × RawStock))
    (summary : List (String × JsVal)) : EngineResponse :=
  ⟨⟨none, none⟩, some ⟨some stocks, some summary⟩⟩

/- ================= ForecastVisualizations: live-price enrichment ================= -/

/-- Outcome of one `fetch('/api/market/price/...')` inside the
enrichment loop: a 2xx response carrying a numeric `price`, a non-ok
response (skipped with `continue`), or a thrown error (swallowed by the
empty `catch`). -/
inductive LookupOutcome where
  | ok (price : Rat)
  | httpErr
  | exn
deriving Repr, BEq, Inhabited

/-- Property read on the accumulated `livePrices` object. -/
def priceGet (m : List (String × Rat)) (k : String) : Option Rat :=
  (m.find? (fun kv => kv.1 == k)).map (·.2)

/-- Property assignment `{...prev, [key]: v}` on the `livePrices`
object: overwrite an existing key, else append. -/
def priceSet (m : List (String × Rat)) (k : String) (v : Rat) : List (String × Rat) :=
  if m.any (fun kv => kv.1 == k) then
    m.map (fun kv => if kv.1 == k then (k, v) else kv)
  else m ++ [(k, v)]

/-- One iteration of the enrichment fetch loop of
`ForecastVisualizations`: query the market gateway for
`stock.name.replace('.NS', '')` and on success store
`Number(data.price || 0)` (the numeric price itself) under `stock.name`;
a failed lookup stores nothing (`continue` / swallowed exception). -/
def fetchStep (outcome : String → LookupOutcome) (acc : List (String × Rat))
    (s : NormStock) : List (String × Rat) :=
  match outcome (jsReplaceFirst ".NS" "" s.name) with
  | .ok p => priceSet acc s.name p
  | _ => acc

/-- The whole enrichment fetch loop, run over every stock in order. -/
def fetchAll (stocks : List NormStock) (outcome : String → LookupOutcome) :
    List (String × Rat) :=
  stocks.foldl (fetchStep outcome) []

/-- JavaScript `x || d` on an optional number (`0` is falsy). -/
def jsOrNum (v : Option Rat) (d : Rat) : Rat :=
  match v with
  | some p => if p == 0 then d else p
  | none => d

/-- A stock after the live-price enhancement of `ForecastVisualizations`. -/
structure EnhancedStock where
  name : String
  quantity : Rat
  buy_price : Rat
  current_price : Rat
  position_value : Rat
  invested_value : Rat
  profit_loss : Rat
  profit_loss_percent : Rat
  var_amount : Rat
deriving Repr, BEq, Inhabited

/-- One stock of `enhancedStocks`:
`livePrice = livePrices[stock.name] || stock.current_price`, then current
value, invested value, profit/loss and percentage return from it. -/
def enhanceStock (live : List (String × Rat)) (s : NormStock) : EnhancedStock :=
  let livePrice := jsOrNum (priceGet live s.name) s.current_price
  let investedValue := s.quantity * s.buy_price
  let currentValue := s.quantity * livePrice
  let profitLoss := currentValue - investedValue
  { name := s.name
    quantity := s.quantity
    buy_price := s.buy_price
    current_price := livePrice
    position_value := currentValue
    invested_value := investedValue
    profit_loss := profitLoss
    profit_loss_percent := if investedValue > 0 then profitLoss / investedValue * 100 else 0
    var_amount := s.var_amount }

/-- The full `enhancedStocks` list for given per-symbol lookup outcomes. -/
def enhancedStocks (stocks : List NormStock) (outcome : String → LookupOutcome) :
    List EnhancedStock :=
  stocks.map (enhanceStock (fetchAll stocks outcome))

/- ============ RiskAnalysisAdapter / AdvancedRiskCharts: ticker matching ============ -/

/-- The matching predicate used by both `RiskAnalysisAdapter` and the
`stockData` extraction of `AdvancedRiskCharts` to resolve an engine
output key against an input holding:
`stock.stockName === key || stock.stockName === key.replace('.NS', '') || stock.stockName + '.NS' === key`. -/
def matchesInput (inputName key : String) : Bool :=
  inputName == key || inputName == jsReplaceFirst ".NS" "" key ||
    inputName ++ ".NS" == key

/-- `inputSummary.find(...)` with the matching predicate above. -/
def findInputStock (inputSummary : List InputStock) (key : String) :
    Option InputStock :=
  inputSummary.find? (fun stock => matchesInput stock.stockName key)

/-- The per-stock metrics object of the Flask calculate response as read
by the adapter and charts; every field is an optional numeric property
(keys `"VaR (₹)"`, `"CVaR (₹)"`, `"Sharpe Ratio"`, `"Max Drawdown"`). -/
structure CalcStockData where
  varAmount : Option Rat
  cvarAmount : Option Rat
  sharpeRatio : Option Rat
  maxDrawdown : Option Rat
deriving Repr, BEq, Inhabited

/-- The `portfolio_summary` object of the Flask calculate response (keys
`"Total Portfolio Value (₹)"`, `"VaR (₹)"`, `"CVaR (₹)"`,
`"Sharpe Ratio"`, `"Max Drawdown"`). -/
structure CalcSummary where
  totalValue : Option Rat
  varAmount : Option Rat
  cvarAmount : Option Rat
  sharpeRatio : Option Rat
  maxDrawdown : Option Rat
deriving Repr, BEq, Inhabited

/-- The backend result handed to `RiskAnalysisAdapter`. -/
structure CalcResult where
  portfolio_summary : Option CalcSummary
  individual_stocks : Option (List (String × CalcStockData))
deriving Repr, BEq, Inhabited

/-- `Number(v || 0)` on an optional numeric property: an absent or zero
property gives 0, otherwise the number itself. -/
def numOr0 (v : Option Rat) : Rat := v.getD 0

/-- One transformed per-stock entry of `RiskAnalysisAdapter`. -/
structure AdapterStock where
  position_value : Rat
  var_amount : Rat
  cvar_amount : Rat
  sharpe_ratio : Rat
  max_drawdown : Rat
  profit_loss : Rat
  roi : Rat
  weight : Rat
deriving Repr, BEq, Inhabited

/-- The `transformedResult` built by `RiskAnalysisAdapter`. -/
structure AdapterResult where
  portfolio_summary : CalcSummary
  individual_stocks : List (String × AdapterStock)
deriving Repr, BEq, Inhabited

/-- `RiskAnalysisAdapter`: copies `portfolio_summary` unchanged (`{}`
when absent) and rebuilds `individual_stocks`, keeping exactly the engine
keys that resolve to some input holding.  `var_amount`, `cvar_amount` and
`max_drawdown` are wrapped in `Math.abs`; `quantity`/`buyPrice` are
`parseFloat(...) || 0` of the matched holding's form strings. -/
def riskAnalysisAdapter (result : CalcResult) (inputSummary : List InputStock) :
    AdapterResult where
  portfolio_summary := result.portfolio_summary.getD ⟨none, none, none, none, none⟩
  individual_stocks :=
    match result.individual_stocks with
    | none => []
    | some entries => entries.filterMap (fun kv =>
        match findInputStock inputSummary kv.1 with
        | none => none
        | some inputStock =>
          let quantity := (jsParseFloat inputStock.quantity).getD 0
          let buyPrice := (jsParseFloat inputStock.buyPrice).getD 0
          let positionValue := quantity * buyPrice
          let innerDenom :=
            match result.portfolio_summary with
            | some ps =>
              match ps.totalValue with
              | some t => if t == 0 then positionValue else t
              | none => positionValue
            | none => positionValue
          some (kv.1,
            { position_value := positionValue
              var_amount := |numOr0 kv.2.varAmount|
              cvar_amount := |numOr0 kv.2.cvarAmount|
              sharpe_ratio := numOr0 kv.2.sharpeRatio
              max_drawdown := |numOr0 kv.2.maxDrawdown|
              profit_loss := 0
              roi := 0
              weight := positionValue / (if innerDenom == 0 then 1 else innerDenom) }))

/-- One row of the `stockData` list built by `AdvancedRiskCharts` from
`individual_stocks` (the fields the risk charts plot). -/
structure ChartRow where
  name : String
  value : Rat
  varAmount : Rat
  cvarAmount : Rat
  sharpe : Rat
  maxDrawdown : Rat
deriving Repr, BEq, Inhabited

/-- The `stockData` extraction of `AdvancedRiskCharts`: the same input
matching as the adapter, `Math.abs` on VaR/CVaR/Max Drawdown
(`parseFloat(inputStock?.quantity || 0)` with a non-numeric field's `NaN`
collapsed to 0 — those fields never feed the risk metrics). -/
def chartStockData (individual : List (String × CalcStockData))
    (inputSummary : List InputStock) : List ChartRow :=
  individual.map (fun kv =>
    let inputStock := findInputStock inputSummary kv.1
    let quantity :=
      match inputStock with
      | some s => if s.quantity == "" then 0 else (jsParseFloat s.quantity).getD 0
      | none => 0
    let buyPrice :=
      match inputStock with
      | some s => if s.buyPrice == "" then 0 else (jsParseFloat s.buyPrice).getD 0
      | none => 0
    { name := jsReplaceFirst ".NS" "" kv.1
      value := quantity * buyPrice
      varAmount := |numOr0 kv.2.varAmount|
      cvarAmount := |numOr0 kv.2.cvarAmount|
      sharpe := numOr0 kv.2.sharpeRatio
      maxDrawdown := |numOr0 kv.2.maxDrawdown| * 100 })

/-- The summary figures `AdvancedRiskCharts` derives from
`portfolio_summary` for the gauges and cards. -/
structure ChartsSummary where
  portfolioValue : Rat
  totalVar : Rat
  totalCvar : Rat
  sharpeRatio : Rat
  maxDrawdown : Rat
deriving Repr, BEq, Inhabited

/-- `portfolioValue`, `totalVar`, `totalCvar`, `sharpeRatio`,
`maxDrawdown` as computed by `AdvancedRiskCharts` (VaR, CVaR and Max
Drawdown wrapped in `Math.abs`). -/
def chartsSummary (ps : CalcSummary) : ChartsSummary where
  portfolioValue := numOr0 ps.totalValue
  totalVar := |numOr0 ps.varAmount|
  totalCvar := |numOr0 ps.cvarAmount|
  sharpeRatio := numOr0 ps.sharpeRatio
  maxDrawdown := |numOr0 ps.maxDrawdown|

/-- Risk-level derivation in `AdvancedRiskCharts` (and
`RiskAnalysisAdapter`'s helper). -/
def getRiskLevel (sharpeRatio maxDrawdown : Rat) : String :=
  if sharpeRatio > (3 : Rat) / 10 ∧ maxDrawdown < (2 : Rat) / 10 then "Low"
  else if sharpeRatio > (1 : Rat) / 10 ∧ maxDrawdown < (45 : Rat) / 100 then "Moderate"
  else "High"

/-- Generic object lookup used for the positions table of
`AdvancedRiskCharts`. -/
def assocGet {α : Type} (m : List (String × α)) (k : String) : Option α :=
  (m.find? (fun kv => kv.1 == k)).map (·.2)

/-- The per-row metrics lookup of the positions table:
`individual[p.name] || individual[p.base + '.NS'] || individual[p.base]`
where `p.name` is the uppercased input symbol and `p.base` strips a
`'.NS'`. -/
def lookupIndividual {α : Type} (individual : List (String × α))
    (stockName : String) : Option α :=
  let symbol := jsToUpper stockName
  let base := jsReplaceFirst ".NS" "" symbol
  ((assocGet individual symbol).orElse
    (fun _ => assocGet individual (base ++ ".NS"))).orElse
    (fun _ => assocGet individual base)

/- ===================== Auxiliary definitions for the theorems ===================== -/

/-- A response body is a typed error: an object with a non-empty string
`error` field (the shape every catch handler in the controllers sends). -/
def hasErrorField : JsVal → Bool
  | .obj fields =>
    match objGet fields "error" with
    | some (.str s) => s != ""
    | _ => false
  | _ => false

/-- A store whose owner `"u1"` already holds 50 history entries. -/
def fullStore : HistoryStore :=
  fun o => if o == "u1" then List.replicate 50 default else []

/-- A one-stock engine payload used to exercise shape invariance. -/
def c5Stocks : List (String × RawStock) :=
  [("TCS", ⟨some (.num 5), some (.num 100), none, none, none, some (.num (-12))⟩)]

/-- A small portfolio summary used to exercise shape invariance. -/
def c5Summary : List (String × JsVal) := [("Sharpe Ratio", .num 1)]

/-- A calculate-mode engine result with signed (negative) risk metrics. -/
def c6Result : CalcResult :=
  ⟨some ⟨some 40000, some (-1200), some (-1500), some 42, some (-18)⟩,
   some [("RELIANCE.NS", ⟨some (-1200), some (-1500), some 42, some (-18)⟩)]⟩

/-- The input holding matching `c6Result`'s engine key. -/
def c6Inputs : List InputStock := [⟨"RELIANCE", "10", "2500"⟩]

/-- A holding whose live-price lookup will fail and whose engine payload
carried no `current_price` (`coerceNum` turned it into 0). -/
def c8Fail : NormStock := ⟨"TCS", 2, 100, 0, 0, 0, 0⟩

/-- Three holdings for the partial-enrichment scenario. -/
def c8A : NormStock := ⟨"AAA", 1, 10, 5, 0, 0, 0⟩

/-- Second holding of the partial-enrichment scenario (its lookup fails). -/
def c8B : NormStock := ⟨"BBB", 2, 100, 7, 0, 0, 0⟩

/-- Third holding of the partial-enrichment scenario. -/
def c8C : NormStock := ⟨"CCC", 3, 30, 9, 0, 0, 0⟩

/-- Lookup outcomes: `AAA` and `CCC` succeed, everything else fails with
a non-ok HTTP response. -/
def c8Outcome : String → LookupOutcome := fun s =>
  if s == "AAA" then .ok 11 else if s == "CCC" then .ok 33 else .httpErr

/- ===================== Helper lemmas ===================== -/

theorem pushHistory_eq (h : List HistoryEntry) (e : HistoryEntry) :
    pushHistory h e =
      if (e :: h).length > 50 then (e :: h).take 50 else e :: h := rfl

theorem pushHistory_length_le (h : List HistoryEntry) (e : HistoryEntry) :
    (pushHistory h e).length ≤ 50 := by
  rw [pushHistory_eq]
  split
  · simp [List.length_take]
  · next hc =>
    simp only [List.length_cons, gt_iff_lt, not_lt] at hc ⊢
    omega

theorem saveCalc_length_le (store : HistoryStore) (owner o : String) (e : HistoryEntry)
    (h : (store o).length ≤ 50) : ((saveCalc store owner e) o).length ≤ 50 := by
  unfold saveCalc
  split
  · exact pushHistory_length_le _ _
  · exact h

theorem applyOps_length_le (ops : List (String × HistoryEntry)) (store : HistoryStore)
    (h : ∀ o, (store o).length ≤ 50) : ∀ o, ((applyOps store ops) o).length ≤ 50 := by
  induction ops generalizing store with
  | nil => exact h
  | cons op rest ih =>
    intro o
    exact ih (saveCalc store op.1 op.2)
      (fun o' => saveCalc_length_le store op.1 o' op.2 (h o')) o

theorem priceGet_nil (k : String) : priceGet [] k = none := rfl

theorem priceGet_cons (a : String × Rat) (t : List (String × Rat)) (k : String) :
    priceGet (a :: t) k = if a.1 == k then some a.2 else priceGet t k := by
  by_cases ha : (a.1 == k) = true
  · unfold priceGet
    rw [List.find?_cons_of_pos t
        (show (fun kv : String × Rat => kv.1 == k) a = true from ha), if_pos ha]
    rfl
  · unfold priceGet
    rw [List.find?_cons_of_neg t
        (show ¬ (fun kv : String × Rat => kv.1 == k) a = true from ha), if_neg ha]

theorem priceGet_map_overwrite_self (t : List (String × Rat)) (k : String) (v : Rat)
    (h : t.any (fun kv => kv.1 == k) = true) :
    priceGet (t.map (fun kv => if kv.1 == k then (k, v) else kv)) k = some v := by
  induction t with
  | nil => simp at h
  | cons a t ih =>
    rw [List.map_cons]
    by_cases hak : (a.1 == k) = true
    · simp only [hak, if_true, priceGet_cons]
      simp
    · rw [Bool.not_eq_true] at hak
      simp only [List.any_cons, hak, Bool.false_or] at h
      simp only [hak, Bool.false_eq_true, if_false, priceGet_cons]
      exact ih h

theorem priceGet_map_overwrite_ne (t : List (String × Rat)) (k k' : String) (v : Rat)
    (h : (k == k') = false) :
    priceGet (t.map (fun kv => if kv.1 == k then (k, v) else kv)) k' = priceGet t k' := by
  induction t with
  | nil => rfl
  | cons a t ih =>
    rw [List.map_cons]
    by_cases hak : (a.1 == k) = true
    · have ha' : a.1 = k := eq_of_beq hak
      have hk2 : (a.1 == k') = false := by rw [ha']; exact h
      simp only [hak, if_true, priceGet_cons, h, hk2, Bool.false_eq_true, if_false]
      exact ih
    · rw [Bool.not_eq_true] at hak
      simp only [hak, Bool.false_eq_true, if_false, priceGet_cons]
      rw [ih]

theorem priceGet_append_single (m : List (String × Rat)) (k k' : String) (v : Rat)
    (h : m.any (fun kv => kv.1 == k) = false) :
    priceGet (m ++ [(k, v)]) k' = if k == k' then some v else priceGet m k' := by
  induction m with
  | nil =>
    simp only [List.nil_append, priceGet_cons, priceGet_nil]
  | cons a t ih =>
    simp only [List.any_cons, Bool.or_eq_false_iff] at h
    simp only [List.cons_append, priceGet_cons, ih h.2]
    by_cases h1 : (a.1 == k') = true
    · by_cases h2 : (k == k') = true
      · exfalso
        have e1 : a.1 = k' := eq_of_beq h1
        have e2 : k = k' := eq_of_beq h2
        have hT : (a.1 == k) = true := by rw [e1, e2]; simp
        rw [h.1] at hT
        exact Bool.false_ne_true hT
      · rw [Bool.not_eq_true] at h2
        simp [h1, h2]
    · rw [Bool.not_eq_true] at h1
      by_cases h2 : (k == k') = true
      · simp [h1, h2]
      · rw [Bool.not_eq_true] at h2
        simp [h1, h2]

theorem priceGet_priceSet (m : List (String × Rat)) (k k' : String) (v : Rat) :
    priceGet (priceSet m k v) k' = if k == k' then some v else priceGet m k' := by
  unfold priceSet
  by_cases hany : (m.any (fun kv => kv.1 == k)) = true
  · rw [if_pos hany]
    by_cases hkk : (k == k') = true
    · have e : k = k' := eq_of_beq hkk
      subst e
      rw [if_pos hkk]
      exact priceGet_map_overwrite_self m k v hany
    · rw [if_neg hkk]
      rw [Bool.not_eq_true] at hkk
      exact priceGet_map_overwrite_ne m k k' v hkk
  · rw [if_neg hany]
    rw [Bool.not_eq_true] at hany
    exact priceGet_append_single m k k' v hany

theorem priceGet_fetchStep_ne (outcome : String → LookupOutcome)
    (acc : List (String × Rat)) (s : NormStock) (key : String)
    (h : (s.name == key) = false) :
    priceGet (fetchStep outcome acc s) key = priceGet acc key := by
  unfold fetchStep
  split
  · rw [priceGet_priceSet, if_neg (by simp [h])]
  · rfl

theorem priceGet_foldl_preserve (rest : List NormStock)
    (outcome : String → LookupOutcome) (acc : List (String × Rat)) (key : String)
    (h : ∀ r ∈ rest, (r.name == key) = false) :
    priceGet (rest.foldl (fetchStep outcome) acc) key = priceGet acc key := by
  induction rest generalizing acc with
  | nil => rfl
  | cons a t ih =>
    rw [List.foldl_cons,
      ih (fetchStep outcome acc a) (fun r hr => h r (List.mem_cons_of_mem _ hr)),
      priceGet_fetchStep_ne outcome acc a key (h a (List.mem_cons_self _ _))]

theorem fetchAll_get_aux (stocks : List NormStock)
    (outcome : String → LookupOutcome) (s : NormStock) :
    s ∈ stocks → (stocks.map (·.name)).Nodup →
    ∀ acc, priceGet acc s.name = none →
    priceGet (stocks.foldl (fetchStep outcome) acc) s.name =
      (match outcome (jsReplaceFirst ".NS" "" s.name) with
       | .ok p => some p
       | _ => none) := by
  induction stocks with
  | nil => intro hmem; cases hmem
  | cons a t ih =>
    intro hmem hnodup acc hacc
    simp only [List.map_cons, List.nodup_cons] at hnodup
    rw [List.foldl_cons]
    rcases List.mem_cons.mp hmem with heq | hmemt
    · subst heq
      have hnot : ∀ r ∈ t, (r.name == s.name) = false := by
        intro r hr
        by_contra hcontra
        have : (r.name == s.name) = true := by simpa using hcontra
        exact hnodup.1 ((eq_of_beq this) ▸ List.mem_map_of_mem _ hr)
      rw [priceGet_foldl_preserve t outcome _ _ hnot]
      cases ho : outcome (jsReplaceFirst ".NS" "" s.name) with
      | ok p =>
        simp only [fetchStep, ho, priceGet_priceSet]
        simp
      | httpErr => simp [fetchStep, ho, hacc]
      | exn => simp [fetchStep, ho, hacc]
    · have hna : (a.name == s.name) = false := by
        by_contra hcontra
        have : (a.name == s.name) = true := by simpa using hcontra
        exact hnodup.1 ((eq_of_beq this) ▸ List.mem_map_of_mem _ hmemt)
      have hacc' : priceGet (fetchStep outcome acc a) s.name = none := by
        rw [priceGet_fetchStep_ne outcome acc a s.name hna]
        exact hacc
      exact ih hmemt hnodup.2 _ hacc'

theorem fetchAll_get (stocks : List NormStock) (outcome : String → LookupOutcome)
    (s : NormStock) (hmem : s ∈ stocks) (hnodup : (stocks.map (·.name)).Nodup) :
    priceGet (fetchAll stocks outcome) s.name =
      (match outcome (jsReplaceFirst ".NS" "" s.name) with
       | .ok p => some p
       | _ => none) :=
  fetchAll_get_aux stocks outcome s hmem hnodup [] rfl

theorem map_inputStock_eta (l : List InputStock) :
    l.map (fun s => (⟨s.stockName, s.quantity, s.buyPrice⟩ : InputStock)) = l := by
  induction l with
  | nil => rfl
  | cons a t ih => simp [ih]

/- ===================== Claim theorems ===================== -/

/-- C1 (counterexample): ticker matching is NOT case-insensitive.  For an
input holding named `"RELIANCE"`, engine output keyed `"RELIANCE"` or
`"RELIANCE.NS"` produces a per-stock entry, but engine output keyed
`"reliance"` produces none — so the three keys do not resolve to the same
per-stock metrics entry. -/
theorem C1_counterexample :
    ((riskAnalysisAdapter
        ⟨none, some [("reliance", ⟨some (-1200), some (-1500), some 42, some (-18)⟩)]⟩
        [⟨"RELIANCE", "10", "2500"⟩]).individual_stocks).map Prod.fst = [] ∧
    ((riskAnalysisAdapter
        ⟨none, some [("RELIANCE", ⟨some (-1200), some (-1500), some 42, some (-18)⟩)]⟩
        [⟨"RELIANCE", "10", "2500"⟩]).individual_stocks).map Prod.fst = ["RELIANCE"] ∧
    ((riskAnalysisAdapter
        ⟨none, some [("RELIANCE.NS", ⟨some (-1200), some (-1500), some 42, some (-18)⟩)]⟩
        [⟨"RELIANCE", "10", "2500"⟩]).individual_stocks).map Prod.fst = ["RELIANCE.NS"] ∧
    lookupIndividual
        [("reliance", (⟨some (-1200), some (-1500), some 42, some (-18)⟩ : CalcStockData))]
        "RELIANCE" = none :=
  ⟨rfl, rfl, rfl, rfl⟩

/-- C1 (amended): ticker keys are matched exactly (case-sensitively) up
to an optional `".NS"` exchange suffix: an engine key equal to the input
name, or equal to the input name with `".NS"` appended, resolves to that
holding; a key differing in case does not resolve. -/
theorem C1_amended_matching :
    (∀ name : String, matchesInput name name = true) ∧
    (∀ name : String, matchesInput name (name ++ ".NS") = true) ∧
    matchesInput "RELIANCE" "reliance" = false ∧
    matchesInput "RELIANCE" "RELIANCE.NS" = true ∧
    findInputStock [⟨"RELIANCE", "10", "2500"⟩] "RELIANCE" =
      some ⟨"RELIANCE", "10", "2500"⟩ ∧
    findInputStock [⟨"RELIANCE", "10", "2500"⟩] "RELIANCE.NS" =
      some ⟨"RELIANCE", "10", "2500"⟩ ∧
    findInputStock [⟨"RELIANCE", "10", "2500"⟩] "reliance" = none := by
  refine ⟨?_, ?_, by decide, by decide, rfl, rfl, rfl⟩
  · intro name
    simp [matchesInput]
  · intro name
    simp [matchesInput]

/-- C2 (counterexample): with the engine call succeeded, a failed
history save makes `calculateRisk` answer a 500 error instead of the
computed result, and makes `analyzePortfolio` answer a 500 error — the
persistence failure is not recovered as a soft warning. -/
theorem C2_counterexample :
    calculateRisk (.ok [("var", .num 100)]) (.error "db down") =
      ⟨500, .obj [("error", .str "Something went wrong while calculating risk.")]⟩ ∧
    (calculateRisk (.ok [("var", .num 100)]) (.error "db down")).status ≠ 200 ∧
    analyzePortfolio "u1" ⟨[⟨"RELIANCE", "10", "2500"⟩], "95", "30", .null⟩
        (fun _ => .ok [("ok", .bool true)]) (.error "db down") =
      ⟨500, .obj [("error", .str "Failed to analyze portfolio"),
                  ("details", .str "db down")]⟩ :=
  ⟨rfl, by decide, rfl⟩

/-- C2 (amended): if the analysis computation succeeds but persisting it
to history fails, the request fails: both controllers catch the thrown
save error and answer 500 with an error payload; the already-computed
result is not returned. -/
theorem C2_amended_persistence_fails_request :
    (∀ (data : List (String × JsVal)) (msg : String),
        calculateRisk (.ok data) (.error msg) =
          ⟨500, .obj [("error", .str "Something went wrong while calculating risk.")]⟩) ∧
    (∀ (user : String) (body : AnalyzeBody) (engine : FormattedPayload → EngineOutcome)
        (result : List (String × JsVal)) (msg : String),
        engine (formatPayload body) = .ok result →
        analyzePortfolio user body engine (.error msg) =
          ⟨500, .obj [("error", .str "Failed to analyze portfolio"),
                      ("details", .str msg)]⟩) := by
  constructor
  · intro data msg
    rfl
  · intro user body engine result msg h
    unfold analyzePortfolio
    rw [h]
    rfl

/-- Witness for C2 (amended) at a concrete request. -/
theorem C2_amended_witness :
    analyzePortfolio "u1" ⟨[⟨"TCS", "5", "100"⟩], "95", "30", .null⟩
        (fun _ => .ok [("ok", .bool true)]) (.error "down") =
      ⟨500, .obj [("error", .str "Failed to analyze portfolio"),
                  ("details", .str "down")]⟩ :=
  C2_amended_persistence_fails_request.2 "u1" _ _ [("ok", .bool true)] "down" rfl

/-- C3: the per-owner calculation history is bounded by 50 at every
state reachable by a sequence of `save-calculation` appends from the
empty store, and appending to an owner that already holds 50 entries
leaves exactly 50: the new entry plus the newest 49 old ones, the oldest
evicted. -/
theorem C3_history_bound :
    (∀ (ops : List (String × HistoryEntry)) (k : Nat) (o : String),
        ((applyOps emptyStore (ops.take k)) o).length ≤ 50) ∧
    (∀ (store : HistoryStore) (o : String) (e : HistoryEntry),
        (store o).length = 50 →
        ((saveCalc store o e) o).length = 50 ∧
        (saveCalc store o e) o = e :: (store o).take 49) := by
  constructor
  · intro ops k o
    exact applyOps_length_le (ops.take k) emptyStore (fun _ => by simp [emptyStore]) o
  · intro store o e h50
    have hsc : (saveCalc store o e) o = pushHistory (store o) e := by
      simp [saveCalc]
    have hgt : (e :: store o).length > 50 := by simp [h50]
    rw [hsc, pushHistory_eq, if_pos hgt]
    constructor
    · simp [List.length_take, h50]
    · rfl

/-- Witness for C3 at a store already holding 50 entries for `"u1"`. -/
theorem C3_history_bound_witness :
    ((saveCalc fullStore "u1" default) "u1").length = 50 :=
  (C3_history_bound.2 fullStore "u1" default (by simp [fullStore])).1

/-- C4 (counterexample): a submission with quantity `"-5"` and price
`"0"` — non-positive values — is not rejected: `handleSubmit` forwards it
to the backend with the raw strings uncoerced, and an empty portfolio is
submitted as well instead of being rejected. -/
theorem C4_counterexample :
    handleSubmit [⟨"RELIANCE", "-5", "0"⟩] "95" "30" .calculate =
      .submit ⟨[⟨"RELIANCE", "-5", "0"⟩], "95", none, none⟩ ∧
    handleSubmit [] "95" "30" .calculate = .submit ⟨[], "95", none, none⟩ :=
  ⟨rfl, rfl⟩

/-- C4 (amended): the only validation before the external call rejects a
submission iff some entry has an empty `stockName`, `quantity` or
`buyPrice` field; otherwise the portfolio is forwarded with its raw
string values (no numeric coercion, no positivity check, and no
empty-portfolio check). -/
theorem C4_amended_validation :
    (∀ (stockData : List InputStock) (c f : String) (m : Mode),
        hasEmptyFields stockData = true →
        handleSubmit stockData c f m = .reject "Please fill in all stock details") ∧
    (∀ (stockData : List InputStock) (c f : String) (m : Mode),
        hasEmptyFields stockData = false →
        handleSubmit stockData c f m =
          .submit ⟨stockData, c,
            (if m == .forecast then some f else none),
            (if m == .forecast then some "flask-api\\Scripts" else none)⟩) ∧
    hasEmptyFields [⟨"RELIANCE", "0", "-5"⟩] = false ∧
    hasEmptyFields [] = false ∧
    hasEmptyFields [⟨"RELIANCE", "", "2500"⟩] = true := by
  refine ⟨?_, ?_, by decide, by decide, by decide⟩
  · intro stockData c f m h
    simp [handleSubmit, h]
  · intro stockData c f m h
    simp [handleSubmit, h, map_inputStock_eta]

/-- Witness for C4 (amended) at a complete one-row portfolio. -/
theorem C4_amended_witness :
    handleSubmit [⟨"RELIANCE", "10", "2500"⟩] "95" "30" .calculate =
      .submit ⟨[⟨"RELIANCE", "10", "2500"⟩], "95", none, none⟩ := by
  have h := C4_amended_validation.2.1 [⟨"RELIANCE", "10", "2500"⟩] "95" "30"
    .calculate (by decide)
  simpa using h

/-- C5: normalizing the flat engine shape and the wrapped engine shape
carrying the same underlying data yields identical normalized results,
and the root is chosen by the presence of `individual_stocks` at top
level, descending into `result` when it is absent. -/
theorem C5_shape_invariance :
    (∀ (stocks : List (String × RawStock)) (summary : List (String × JsVal)),
        normalizeResult (flatShape stocks summary) =
          normalizeResult (wrappedShape stocks summary)) ∧
    (∀ r : EngineResponse, r.top.individual_stocks.isSome = true → rootOf r = r.top) ∧
    (∀ (r : EngineResponse) (inner : EngineInner),
        r.top.individual_stocks = none → r.result = some inner → rootOf r = inner) := by
    refine ⟨fun _ _ => rfl, ?_, ?_⟩
    · intro r h
      simp [rootOf, h]
    · intro r inner h1 h2
      simp [rootOf, h1, h2]

/-- Witness for C5 at a concrete flat/wrapped response pair. -/
theorem C5_shape_invariance_witness :
    normalizeResult (flatShape c5Stocks c5Summary) =
      normalizeResult (wrappedShape c5Stocks c5Summary) ∧
    rootOf (flatShape c5Stocks c5Summary) = (flatShape c5Stocks c5Summary).top ∧
    rootOf (wrappedShape c5Stocks c5Summary) = ⟨some c5Stocks, some c5Summary⟩ :=
  ⟨C5_shape_invariance.1 c5Stocks c5Summary,
   C5_shape_invariance.2.1 _ rfl,
   C5_shape_invariance.2.2 _ _ rfl rfl⟩

/-- C6: in the normalized output the per-stock `var_amount` and
`cvar_amount` (adapter and charts) and the portfolio-summary `totalVar`
and `totalCvar` are always non-negative, whatever the sign of the engine
values: they are wrapped in `Math.abs`. -/
theorem C6_nonneg :
    (∀ (result : CalcResult) (inputSummary : List InputStock)
        (kv : String × AdapterStock),
        kv ∈ (riskAnalysisAdapter result inputSummary).individual_stocks →
        0 ≤ kv.2.var_amount ∧ 0 ≤ kv.2.cvar_amount) ∧
    (∀ (individual : List (String × CalcStockData)) (inputSummary : List InputStock)
        (row : ChartRow), row ∈ chartStockData individual inputSummary →
        0 ≤ row.varAmount ∧ 0 ≤ row.cvarAmount) ∧
    (∀ ps : CalcSummary,
        0 ≤ (chartsSummary ps).totalVar ∧ 0 ≤ (chartsSummary ps).totalCvar) := by
  refine ⟨?_, ?_, ?_⟩
  · intro result inputSummary kv hmem
    simp only [riskAnalysisAdapter] at hmem
    cases his : result.individual_stocks with
    | none =>
      rw [his] at hmem
      simp at hmem
    | some entries =>
      rw [his] at hmem
      simp only [List.mem_filterMap] at hmem
      obtain ⟨a, _, hf⟩ := hmem
      cases hfind : findInputStock inputSummary a.1 with
      | none =>
        rw [hfind] at hf
        simp at hf
      | some inp =>
        rw [hfind] at hf
        simp only [Option.some.injEq] at hf
        rw [← hf]
        exact ⟨abs_nonneg _, abs_nonneg _⟩
  · intro individual inputSummary row hmem
    simp only [chartStockData, List.mem_map] at hmem
    obtain ⟨kv, _, heq⟩ := hmem
    rw [← heq]
    exact ⟨abs_nonneg _, abs_nonneg _⟩
  · intro ps
    exact ⟨abs_nonneg _, abs_nonneg _⟩

/-- Witness for C6 at a concrete engine result with negative metrics. -/
theorem C6_nonneg_witness :
    (0 ≤ ((riskAnalysisAdapter c6Result c6Inputs).individual_stocks.headI).2.var_amount) ∧
    0 ≤ (chartsSummary ⟨some 40000, some (-1200), some (-1500), some 42,
          some (-18)⟩).totalVar :=
  ⟨(C6_nonneg.1 c6Result c6Inputs _ (List.mem_cons_self _ _)).1,
   (C6_nonneg.2.2 _).1⟩

/-- C7: for every engine and save outcome, both controllers return an
HTTP response that is either the 200 success payload (engine call and
save both succeeded) or a typed error object carrying a non-empty
`error` message — no outcome escapes the catch handlers. -/
theorem C7_total_response :
    (∀ (engine : EngineOutcome) (save : SaveOutcome),
        (∃ data mongoId, engine = .ok data ∧ save = .ok mongoId ∧
            calculateRisk engine save =
              ⟨200, .obj (data ++ [("mongoId", .str mongoId)])⟩) ∨
        hasErrorField (calculateRisk engine save).body = true) ∧
    (∀ (user : String) (body : AnalyzeBody)
        (engine : FormattedPayload → EngineOutcome) (save : SaveOutcome),
        (∃ result id, engine (formatPayload body) = .ok result ∧ save = .ok id ∧
            analyzePortfolio user body engine save =
              ⟨200, newPredictionOf user (formatPayload body) result⟩) ∨
        hasErrorField (analyzePortfolio user body engine save).body = true) := by
  constructor
  · intro engine save
    cases engine with
    | ok data =>
      cases save with
      | ok id => exact Or.inl ⟨data, id, rfl, rfl, rfl⟩
      | error m => exact Or.inr rfl
    | respErr st d stText => exact Or.inr rfl
    | noResponse => exact Or.inr rfl
    | setupErr m => exact Or.inr rfl
  · intro user body engine save
    cases hE : engine (formatPayload body) with
    | ok result =>
      cases save with
      | ok id =>
        refine Or.inl ⟨result, id, rfl, rfl, ?_⟩
        unfold analyzePortfolio
        rw [hE]
        rfl
      | error m =>
        apply Or.inr
        unfold analyzePortfolio
        rw [hE]
        rfl
    | respErr st d stText =>
      apply Or.inr
      unfold analyzePortfolio
      rw [hE]
      rfl
    | noResponse =>
      apply Or.inr
      unfold analyzePortfolio
      rw [hE]
      rfl
    | setupErr m =>
      apply Or.inr
      unfold analyzePortfolio
      rw [hE]
      rfl

/-- C8 (counterexample): a holding whose live-price lookup fails does
NOT fall back to `buyPrice` for the value calculation: with quantity 2,
buy price 100 and no engine `current_price`, its enhanced
`position_value` is 0, not 2 × 100 = 200. -/
theorem C8_counterexample :
    (enhancedStocks [c8Fail] (fun _ => .httpErr)).map (·.position_value) = [0] ∧
    c8Fail.quantity * c8Fail.buy_price = 200 ∧
    (0 : Rat) ≠ 200 := by
  refine ⟨?_, by norm_num [c8Fail], by norm_num⟩
  simp [enhancedStocks, enhanceStock, fetchAll, fetchStep, priceGet, jsOrNum, c8Fail]

/-- C8 (amended): a failed lookup never aborts the other holdings — a
holding whose lookup succeeds with a non-zero price receives it as
`current_price` (and in its position value), while a holding whose
lookup fails keeps the engine-supplied `current_price` (0 when the
engine supplied none) for the value calculation, not `buyPrice`; every
holding stays in the output. -/
theorem C8_amended_partial_enrichment :
    ∀ (stocks : List NormStock) (outcome : String → LookupOutcome) (s : NormStock),
      s ∈ stocks → (stocks.map (·.name)).Nodup →
      (∀ p : Rat, outcome (jsReplaceFirst ".NS" "" s.name) = .ok p → p ≠ 0 →
          (enhanceStock (fetchAll stocks outcome) s).current_price = p ∧
          (enhanceStock (fetchAll stocks outcome) s).position_value =
            s.quantity * p) ∧
      ((outcome (jsReplaceFirst ".NS" "" s.name) = .httpErr ∨
        outcome (jsReplaceFirst ".NS" "" s.name) = .exn) →
          (enhanceStock (fetchAll stocks outcome) s).current_price =
            s.current_price ∧
          (enhanceStock (fetchAll stocks outcome) s).position_value =
            s.quantity * s.current_price) ∧
      (enhancedStocks stocks outcome).length = stocks.length := by
  intro stocks outcome s hmem hnodup
  have hget := fetchAll_get stocks outcome s hmem hnodup
  refine ⟨?_, ?_, ?_⟩
  · intro p hok hne
    rw [hok] at hget
    have hbe : (p == 0) = false := by
      simpa using hne
    constructor
    · simp [enhanceStock, jsOrNum, hget, hbe]
    · simp [enhanceStock, jsOrNum, hget, hbe]
  · intro hfail
    have hnone : priceGet (fetchAll stocks outcome) s.name = none := by
      rcases hfail with hf | hf <;> rw [hf] at hget <;> exact hget
    constructor
    · simp [enhanceStock, jsOrNum, hnone]
    · simp [enhanceStock, jsOrNum, hnone]
  · simp [enhancedStocks]

/-- Witness for C8 (amended): of three holdings, `BBB`'s lookup fails
and keeps its engine `current_price` 7, while `AAA`'s succeeds and
receives the live price 11. -/
theorem C8_amended_witness :
    (enhanceStock (fetchAll [c8A, c8B, c8C] c8Outcome) c8B).current_price =
      c8B.current_price ∧
    (enhanceStock (fetchAll [c8A, c8B, c8C] c8Outcome) c8A).current_price = 11 := by
  constructor
  · exact ((C8_amended_partial_enrichment [c8A, c8B, c8C] c8Outcome c8B
      (List.mem_cons_of_mem _ (List.mem_cons_self _ _)) (by decide)).2.1
        (Or.inl rfl)).1
  · exact ((C8_amended_partial_enrichment [c8A, c8B, c8C] c8Outcome c8A
      (List.mem_cons_self _ _) (by decide)).1 11 rfl (by norm_num)).1

/-- C9: the market gateway uppercases the requested symbol, appends the
`".NS"` suffix for the upstream query only when not already present, and
answers with the uppercased input (without the forced suffix) and the
fetched price; an upstream failure answers a 500 error. -/
theorem C9_symbol_normalization :
    (∀ raw : String, jsEndsWith (jsToUpper raw) ".NS" = false →
        nseSymbolOf raw = jsToUpper raw ++ ".NS") ∧
    (∀ raw : String, jsEndsWith (jsToUpper raw) ".NS" = true →
        nseSymbolOf raw = jsToUpper raw) ∧
    (∀ (raw : String) (upstream : String → Option Rat) (price : Rat),
        upstream (nseSymbolOf raw) = some price →
        getPrice raw upstream =
          ⟨200, .obj [("symbol", .str (jsToUpper raw)), ("price", .num price)]⟩) ∧
    (∀ (raw : String) (upstream : String → Option Rat),
        upstream (nseSymbolOf raw) = none →
        getPrice raw upstream =
          ⟨500, .obj [("error", .str "Failed to fetch price.")]⟩) := by
  refine ⟨?_, ?_, ?_, ?_⟩
  · intro raw h
    simp [nseSymbolOf, h]
  · intro raw h
    simp [nseSymbolOf, h]
  · intro raw upstream price h
    simp [getPrice, h]
  · intro raw upstream h
    simp [getPrice, h]

/-- Witness for C9 at the lowercase symbol `"reliance"`. -/
theorem C9_symbol_normalization_witness :
    nseSymbolOf "reliance" = "RELIANCE.NS" ∧
    getPrice "reliance" (fun s => if s == "RELIANCE.NS" then some 2500 else none) =
      ⟨200, .obj [("symbol", .str "RELIANCE"), ("price", .num 2500)]⟩ := by
  constructor
  · have h := C9_symbol_normalization.1 "reliance" (by decide)
    rw [h]
    rfl
  · have h := C9_symbol_normalization.2.2.1 "reliance"
      (fun s => if s == "RELIANCE.NS" then some 2500 else none) 2500 rfl
    rw [h]
    rfl

/-- C10: the persisted input record and the payload forwarded to the
engine carry `parseInt` truncations of the submitted strings: a
fractional `"2500.75"` becomes 2500, a non-numeric string becomes `NaN`,
and such a submission is still processed rather than rejected. -/
theorem C10_parseInt_truncation :
    (∀ portfolio : List InputStock,
        riskInputOf portfolio =
          ⟨portfolio.map (·.stockName),
           portfolio.map (fun s => jsParseInt s.quantity),
           portfolio.map (fun s => jsParseInt s.buyPrice)⟩) ∧
    (∀ body : AnalyzeBody,
        (formatPayload body).portfolio =
          body.portfolio.map (fun s =>
            ⟨s.stockName, jsParseInt s.quantity, jsParseInt s.buyPrice⟩)) ∧
    jsParseInt "2500.75" = some 2500 ∧
    jsParseInt "abc" = none ∧
    riskInputOf [⟨"RELIANCE", "10", "2500.75"⟩] =
      ⟨["RELIANCE"], [some 10], [some 2500]⟩ ∧
    (∀ (user : String) (engineResult : List (String × JsVal)) (id : String),
        (analyzePortfolio user ⟨[⟨"RELIANCE", "10", "abc"⟩], "95", "30", .null⟩
            (fun _ => .ok engineResult) (.ok id)).status = 200) :=
  ⟨fun _ => rfl, fun _ => rfl, by decide, by decide, rfl,
   fun _ _ _ => rfl⟩

end Riskos
